import Mathlib

/-!
Verification of the evidence-session core of TestResultMaker (src/main.py).

The Python source is shallowly embedded below.  Pure string manipulation
(`str.strip`, `str.lower`, `in`, `split`) is modelled over `List Char`;
the pandas `read_csv` collaborator is modelled as a line/field splitter
(first non-blank line is the header, empty fields become missing cells,
a data row with more fields than the header aborts the parse, shorter
rows are padded with missing cells; numeric dtype coercion and the
extended NA token list of pandas are not modelled, cells stay text).
The filesystem (`os.path.exists`) is an explicit `String → Bool`
parameter, and the python-docx writer is modelled by a `DocElem` list
recording the primitives the exporter issues in order.
-/

/-- Character class stripped by Python `str.strip()` with no argument. -/
def isSpaceChar (c : Char) : Bool :=
  c == ' ' || c == '\t' || c == '\n' || c == '\r' || c == '\x0b' || c == '\x0c'

/-- Drop trailing characters satisfying `isSpaceChar` (structural version). -/
def dropTrailChars : List Char → List Char
  | [] => []
  | a :: as =>
    match dropTrailChars as with
    | [] => if isSpaceChar a then [] else [a]
    | b :: bs => a :: b :: bs

/-- Characters of `Python str.strip()`: drop whitespace at both ends. -/
def stripChars (l : List Char) : List Char :=
  dropTrailChars (l.dropWhile isSpaceChar)

/-- Python `s.strip()`. -/
def pyStrip (s : String) : String :=
  ⟨stripChars s.data⟩

/-- Split a character list on a separator character, Python `str.split(sep)`:
`"a\nb\n".split` keeps the trailing empty piece. -/
def splitChar (c : Char) : List Char → List (List Char)
  | [] => [[]]
  | a :: as =>
    match splitChar c as with
    | [] => [[a]]
    | h :: t => if a == c then [] :: h :: t else (a :: h) :: t

/-- Python `s.split(sep)` for a one-character separator. -/
def strSplit (c : Char) (s : String) : List String :=
  (splitChar c s.data).map (fun l => ⟨l⟩)

/-- Pattern `pat` occurs at the start of `txt`. -/
def leadChars : List Char → List Char → Bool
  | [], _ => true
  | _ :: _, [] => false
  | a :: as, b :: bs => a == b && leadChars as bs

/-- Pattern `pat` occurs somewhere inside `txt`. -/
def subChars (pat : List Char) : List Char → Bool
  | [] => leadChars pat []
  | b :: bs => leadChars pat (b :: bs) || subChars pat bs

/-- Python `pat in s` substring containment. -/
def hasSubstr (pat s : String) : Bool :=
  subChars pat.data s.data

/-- Python truthiness-with-default `s or d` for strings. -/
def pyOr (s d : String) : String :=
  if s == "" then d else s

/-- Python `s.lower()` (ASCII case folding, as used on the header names). -/
def lowerStr (s : String) : String :=
  ⟨s.data.map Char.toLower⟩

-- ==================== DATA MODELS (src/main.py lines 120-153) ====================

/-- `Step` dataclass, src/main.py lines 120-128. -/
structure Step where
  index : Nat
  title : String := ""
  expected : String := ""
  actual : String := ""
  notes : List String := []
  screenshots : List String := []
deriving DecidableEq, Repr

/-- `Step.add_note`, src/main.py lines 130-134: guarded by Python
`if text and text.strip():`, and it appends the stripped text. -/
def Step.add_note (s : Step) (text : String) : Step :=
  if !(text == "") && !(pyStrip text == "") then
    { s with notes := s.notes ++ [pyStrip text] }
  else s

/-- `Step.add_screenshot`, src/main.py lines 136-143: `os.path.exists` is the
ambient filesystem predicate `fs`.  Returns the updated step and the Bool the
method returns.  Python `if path and os.path.exists(path):`. -/
def Step.add_screenshot (fs : String → Bool) (s : Step) (path : String) : Step × Bool :=
  if !(path == "") && fs path then
    ({ s with screenshots := s.screenshots ++ [path] }, true)
  else (s, false)

/-- `Step.is_empty`, src/main.py lines 145-153. -/
def Step.is_empty (s : Step) : Bool :=
  pyStrip s.title == "" && pyStrip s.expected == "" && pyStrip s.actual == "" &&
    s.notes.isEmpty && s.screenshots.isEmpty

-- ==================== CLIPBOARD PARSER (src/main.py lines 156-256) ====================

/-- Generic parsed table: the pandas DataFrame as used by this program.
A cell is `none` where pandas holds NaN. -/
structure RawTable where
  columns : List String
  rows : List (List (Option String))
deriving DecidableEq, Repr

/-- Model of `pd.read_csv(StringIO(text), sep=sep)` as invoked at
src/main.py lines 181 and 188: blank lines are skipped, the first remaining
line is the header, empty fields become missing cells, a data row with more
fields than the header raises (here: `none`), shorter rows are padded. -/
def readCsv (sep : Char) (text : String) : Option RawTable :=
  let lines := (strSplit '\n' text).filter (fun l => !(l == ""))
  match lines with
  | [] => none
  | header :: dataLines =>
    let cols := strSplit sep header
    let rows := dataLines.map (fun l =>
      (strSplit sep l).map (fun f => if f == "" then none else some f))
    if rows.any (fun r => cols.length < r.length) then none
    else some { columns := cols,
                rows := rows.map (fun r => r ++ List.replicate (cols.length - r.length) none) }

/-- `ClipboardParser.parse_excel_from_clipboard`, src/main.py lines 160-205,
with the clipboard text passed explicitly.  Priority: tab, then comma, then
one line per row under a fixed column named Step. -/
def parse_excel_from_clipboard (text : String) : Option RawTable :=
  if (text == "") || (pyStrip text == "") then none
  else if text.data.contains '\t' then readCsv '\t' text
  else if text.data.contains ',' then readCsv ',' text
  else
    let lines := ((strSplit '\n' text).map pyStrip).filter (fun l => !(l == ""))
    if 0 < lines.length then
      some { columns := ["Step"], rows := lines.map (fun l => [some l]) }
    else none

/-- Keyword set for the title role, src/main.py line 227. -/
def title_keywords : List String :=
  ["step", "title", "test", "case", "action", "description", "name", "summary"]

/-- Keyword set for the expected role, src/main.py line 238. -/
def expected_keywords : List String :=
  ["expected", "result", "outcome", "should"]

/-- Keyword set for the actual role, src/main.py line 249. -/
def actual_keywords : List String :=
  ["actual", "status", "pass", "fail"]

/-- Result dictionary of `detect_columns`, src/main.py lines 219-224; the
description key is initialised to None and never assigned. -/
structure DetectedMapping where
  title : Option String
  expected : Option String
  actual : Option String
  description : Option String
deriving DecidableEq, Repr

/-- One column name matches a keyword set, src/main.py line 229 and peers. -/
def roleMatch (kws : List String) (colLower : String) : Bool :=
  kws.any (fun k => hasSubstr k colLower)

/-- The `for idx, col_name in enumerate(columns_lower)` search loop. -/
def findIdxAux (p : String → Bool) : List String → Nat → Option Nat
  | [], _ => none
  | c :: cs, i => if p c then some i else findIdxAux p cs (i + 1)

/-- First column whose lowered, stripped name contains a keyword of the set;
returns the original column name, src/main.py lines 228-231 and peers. -/
def pickCol (kws : List String) (cols : List String) : Option String :=
  match findIdxAux (roleMatch kws) (cols.map (fun c => pyStrip (lowerStr c))) 0 with
  | some i => cols.get? i
  | none => none

/-- `ClipboardParser.detect_columns`, src/main.py lines 207-256. -/
def detect_columns (df : RawTable) : DetectedMapping :=
  { title :=
      match pickCol title_keywords df.columns with
      | some c => some c
      | none => df.columns.head?
  , expected :=
      match pickCol expected_keywords df.columns with
      | some c => some c
      | none => df.columns.get? 1
  , actual := pickCol actual_keywords df.columns
  , description := none }

-- ==================== MAPPING RESOLUTION (src/main.py lines 994-1063) ====================

/-- Output of `ColumnMappingDialog.get_mapping`, src/main.py lines 366-373. -/
structure Mapping where
  title : Option String
  expected : Option String
  actual : Option String
  skipEmpty : Bool
deriving DecidableEq, Repr

/-- Python truthiness of an optional column name. -/
def optTruthy : Option String → Bool
  | none => false
  | some s => !(s == "")

/-- Cell of a row under a column label; a label absent from the table raises
KeyError in `row[col]` (here `Except.error`), a present label yields the cell. -/
def cellOf (t : RawTable) (row : List (Option String)) (col : String) :
    Except Unit (Option String) :=
  match findIdxAux (fun c => c == col) t.columns 0 with
  | none => Except.error ()
  | some i => Except.ok ((row.get? i).getD none)

/-- `str(row[c]) if not pd.isna(row[c]) else ""`. -/
def valOf : Option String → String
  | none => ""
  | some s => s

/-- Optional-column value, src/main.py lines 1024-1028: a falsy column name
skips the lookup and leaves the empty string. -/
def optColVal (t : RawTable) (row : List (Option String)) :
    Option String → Except Unit String
  | none => Except.ok ""
  | some c =>
    if c == "" then Except.ok ""
    else (cellOf t row c).map valOf

/-- The three raw text values of one row, src/main.py lines 1020-1028, in
source order (title first, then expected, then actual); any KeyError inside
is the per-row exception caught at line 1041. -/
def rowVals (t : RawTable) (titleCol : String) (expCol actCol : Option String)
    (row : List (Option String)) : Except Unit (String × String × String) := do
  let tcell ← cellOf t row titleCol
  let ev ← optColVal t row expCol
  let av ← optColVal t row actCol
  Except.ok (valOf tcell, ev, av)

/-- The skip test of src/main.py line 1031: the stripped title is falsy, or
its lower-cased form is one of the literal tokens nan, none, empty string. -/
def skipTitleVal (tv : String) : Bool :=
  pyStrip tv == "" || (lowerStr (pyStrip tv) == "nan" ||
    lowerStr (pyStrip tv) == "none" || lowerStr (pyStrip tv) == "")

/-- The row loop of src/main.py lines 1017-1043: `k` is `len(new_steps)` so
far; a failed row or a skipped row leaves the counter unchanged; a kept row
becomes a Step with index `k + 1` and stripped field values. -/
def buildStepsAux (t : RawTable) (titleCol : String) (expCol actCol : Option String)
    (skipEmpty : Bool) : List (List (Option String)) → Nat → List Step
  | [], _ => []
  | row :: rest, k =>
    match rowVals t titleCol expCol actCol row with
    | Except.error _ => buildStepsAux t titleCol expCol actCol skipEmpty rest k
    | Except.ok (tv, ev, av) =>
      if skipEmpty && skipTitleVal tv then
        buildStepsAux t titleCol expCol actCol skipEmpty rest k
      else
        { index := k + 1, title := pyStrip tv, expected := pyStrip ev,
          actual := pyStrip av, notes := [], screenshots := [] } ::
          buildStepsAux t titleCol expCol actCol skipEmpty rest (k + 1)

/-- All Steps produced from a table under a resolved mapping. -/
def buildSteps (t : RawTable) (titleCol : String) (expCol actCol : Option String)
    (skipEmpty : Bool) : List Step :=
  buildStepsAux t titleCol expCol actCol skipEmpty t.rows 0

/-- Errors surfaced by `_process_excel_dataframe` via `show_error`. -/
inductive ProcError where
  | titleRequired
  | noValidSteps
deriving DecidableEq, Repr

/-- `MainWindow._process_excel_dataframe`, src/main.py lines 994-1059, from
the accepted dialog mapping on: returns the session step list, the session
cursor, and the error surfaced, if any.  On error the session is returned
unchanged; on success the step list is replaced and the cursor reset to 0. -/
def processExcelDataframe (df : RawTable) (m : Mapping) (steps0 : List Step)
    (cursor0 : Nat) : List Step × Nat × Option ProcError :=
  if optTruthy m.title = false then (steps0, cursor0, some ProcError.titleRequired)
  else
    let ns := buildSteps df (m.title.getD "") m.expected m.actual m.skipEmpty
    if ns.isEmpty then (steps0, cursor0, some ProcError.noValidSteps)
    else (ns, 0, none)

-- ==================== DOCX EXPORTER (src/main.py lines 463-555) ====================

/-- One primitive issued to the python-docx writer, in order. -/
inductive DocElem where
  | heading (level : Nat) (text : String)
  | para (text : String)
  | bullet (text : String)
  | caption (text : String)
  | table2 (hdr1 hdr2 val1 val2 : String)
  | picture (path : String)
  | pageBreak
deriving DecidableEq, Repr

/-- One screenshot entry, src/main.py lines 527-544: `fs` is
`os.path.exists`, `imgOk` abstracts whether `doc.add_picture` succeeds on
the file.  A missing file yields the placeholder paragraph; a failing
image add yields the caption already emitted plus the error paragraph. -/
def renderScreenshot (fs imgOk : String → Bool) (idx : Nat) (path : String) :
    List DocElem :=
  if fs path then
    if imgOk path then
      [DocElem.caption ("Screenshot " ++ toString idx ++ ":"),
       DocElem.picture path, DocElem.para ""]
    else
      [DocElem.caption ("Screenshot " ++ toString idx ++ ":"),
       DocElem.para ("[Error loading screenshot " ++ toString idx ++ "]")]
  else
    [DocElem.para ("[Screenshot " ++ toString idx ++ " missing: " ++ path ++ "]")]

/-- The `enumerate(step.screenshots, 1)` loop with running caption number. -/
def renderShots (fs imgOk : String → Bool) : Nat → List String → List DocElem
  | _, [] => []
  | i, p :: rest => renderScreenshot fs imgOk i p ++ renderShots fs imgOk (i + 1) rest

/-- Document content of one step, src/main.py lines 493-546: an empty step
is skipped entirely, otherwise heading, optional result table, optional
notes, optional screenshots, page break. -/
def renderStep (fs imgOk : String → Bool) (s : Step) : List DocElem :=
  if s.is_empty then []
  else
    [DocElem.heading 1 ("Step " ++ toString s.index ++ ": " ++ pyOr s.title "Untitled")] ++
    (if !(s.expected == "") || !(s.actual == "") then
      [DocElem.table2 "Expected Result" "Actual Result"
        (pyOr s.expected "N/A") (pyOr s.actual "N/A"), DocElem.para ""]
     else []) ++
    (if s.notes.isEmpty then []
     else DocElem.heading 2 "Notes:" :: s.notes.map DocElem.bullet) ++
    (if s.screenshots.isEmpty then []
     else DocElem.heading 2 "Screenshots:" :: renderShots fs imgOk 1 s.screenshots) ++
    [DocElem.pageBreak]

/-- `DocxExporter.export` build phase, src/main.py lines 480-546: title
block, metadata (`now` is the formatted timestamp), page break, then every
step in order. -/
def exportDoc (now title : String) (fs imgOk : String → Bool) (steps : List Step) :
    List DocElem :=
  [DocElem.heading 0 title, DocElem.para ("Generated: " ++ now),
   DocElem.para ("Total Steps: " ++ toString steps.length), DocElem.pageBreak] ++
  steps.bind (renderStep fs imgOk)

-- ==================== CONCRETE FIXTURES FOR WITNESSES ====================

/-- A filesystem on which exactly the file a.png exists. -/
def fsOnlyA : String → Bool := fun p => p == "a.png"

/-- A filesystem on which every file except gone.png exists. -/
def fsNoGone : String → Bool := fun p => !(p == "gone.png")

/-- An image loader that always succeeds. -/
def imgAll : String → Bool := fun _ => true

/-- A bare step used by witnesses. -/
def step0 : Step :=
  { index := 1, title := "", expected := "", actual := "", notes := [], screenshots := [] }

/-- A one-column, one-row table whose single cell carries surrounding
whitespace, used by the resolution witnesses. -/
def tablePad : RawTable :=
  { columns := ["Title"], rows := [[some "  x  "]] }

/-- The single step that resolving `tablePad` produces. -/
def stepX : Step :=
  { index := 1, title := "x", expected := "", actual := "", notes := [], screenshots := [] }

-- ==================== HELPER LEMMAS ====================

/-- The head of `dropWhile p` never satisfies `p`. -/
theorem head_dropWhile_not (p : Char → Bool) :
    ∀ (l : List Char) (a : Char), (l.dropWhile p).head? = some a → p a = false := by
  intro l
  induction l with
  | nil => intro a h; simp [List.dropWhile] at h
  | cons x xs ih =>
    intro a h
    by_cases hp : p x = true
    · rw [List.dropWhile_cons_of_pos hp] at h
      exact ih a h
    · rw [List.dropWhile_cons_of_neg hp] at h
      simp at h
      rw [← h]
      exact Bool.eq_false_iff.mpr hp

/-- `dropTrailChars` only removes from the end: a head survives. -/
theorem head_dropTrailChars :
    ∀ (l : List Char) (a : Char), (dropTrailChars l).head? = some a → l.head? = some a := by
  intro l a h
  cases l with
  | nil => simp [dropTrailChars] at h
  | cons x xs =>
    rw [dropTrailChars] at h
    cases hd : dropTrailChars xs with
    | nil =>
      rw [hd] at h
      by_cases hs : isSpaceChar x = true
      · simp [hs] at h
      · simp [Bool.eq_false_iff.mpr hs] at h
        simp [h]
    | cons b bs =>
      rw [hd] at h
      simp at h
      simp [h]

/-- The last element kept by `dropTrailChars` is never whitespace. -/
theorem last_dropTrailChars_not :
    ∀ (l : List Char) (a : Char), (dropTrailChars l).getLast? = some a →
      isSpaceChar a = false := by
  intro l
  induction l with
  | nil => intro a h; simp [dropTrailChars] at h
  | cons x xs ih =>
    intro a h
    rw [dropTrailChars] at h
    cases hd : dropTrailChars xs with
    | nil =>
      rw [hd] at h
      by_cases hs : isSpaceChar x = true
      · simp [hs] at h
      · simp [Bool.eq_false_iff.mpr hs] at h
        rw [← h]
        exact Bool.eq_false_iff.mpr hs
    | cons b bs =>
      rw [hd] at h
      rw [List.getLast?_cons_cons] at h
      exact ih a (hd ▸ h)

/-- The first character of a stripped string is never whitespace. -/
theorem stripChars_head_not (l : List Char) (a : Char)
    (h : (stripChars l).head? = some a) : isSpaceChar a = false :=
  head_dropWhile_not isSpaceChar l a (head_dropTrailChars _ a h)

/-- The last character of a stripped string is never whitespace. -/
theorem stripChars_last_not (l : List Char) (a : Char)
    (h : (stripChars l).getLast? = some a) : isSpaceChar a = false :=
  last_dropTrailChars_not _ a h

/-- A search loop over elements none of which matches finds nothing. -/
theorem findIdxAux_eq_none (p : String → Bool) :
    ∀ (l : List String), (∀ x ∈ l, p x = false) → ∀ i, findIdxAux p l i = none := by
  intro l
  induction l with
  | nil => intro _ i; rfl
  | cons x xs ih =>
    intro h i
    rw [findIdxAux]
    rw [h x (by simp)]
    simp only [Bool.false_eq_true, if_false]
    exact ih (fun y hy => h y (by simp [hy])) (i + 1)

-- ==================== CLAIM THEOREMS ====================

/-- C2: the clipboard text "Title\tExpected\nLogin\tUser is logged in\n" is
ingested as a 2-column, 1-row table; role inference maps title to column
Title and expected to column Expected (actual stays unset); and resolution
with that inferred mapping unmodified (skip flag at its default, true)
yields exactly one Step with index 1, title Login, expected
"User is logged in" and empty actual. -/
theorem c2_concrete_pipeline :
    parse_excel_from_clipboard "Title\tExpected\nLogin\tUser is logged in\n" =
      some { columns := ["Title", "Expected"],
             rows := [[some "Login", some "User is logged in"]] } ∧
    detect_columns { columns := ["Title", "Expected"],
                     rows := [[some "Login", some "User is logged in"]] } =
      { title := some "Title", expected := some "Expected",
        actual := none, description := none } ∧
    buildSteps { columns := ["Title", "Expected"],
                 rows := [[some "Login", some "User is logged in"]] }
        "Title" (some "Expected") none true =
      [{ index := 1, title := "Login", expected := "User is logged in",
         actual := "", notes := [], screenshots := [] }] := by
  refine ⟨?_, ?_, ?_⟩ <;> decide

/-- C4: when the title role of the mapping is unset, resolution surfaces the
missing-required-mapping error and the session step list and cursor are
returned unchanged. -/
theorem c4_missing_title_atomic (df : RawTable) (m : Mapping) (steps0 : List Step)
    (cursor0 : Nat) (h : m.title = none) :
    processExcelDataframe df m steps0 cursor0 =
      (steps0, cursor0, some ProcError.titleRequired) := by
  simp [processExcelDataframe, h, optTruthy]

/-- Witness for C4 at a concrete table, mapping and session. -/
theorem c4_missing_title_atomic_witness :
    processExcelDataframe tablePad
        { title := none, expected := some "Title", actual := none, skipEmpty := true }
        [step0] 0 =
      ([step0], 0, some ProcError.titleRequired) :=
  c4_missing_title_atomic tablePad
    { title := none, expected := some "Title", actual := none, skipEmpty := true }
    [step0] 0 rfl

/-- C8 counterexample: for the input " a ", which is non-empty after
trimming, `add_note` does not append the text itself: the stored note is the
stripped text "a", not " a ". -/
theorem c8_counterexample :
    pyStrip " a " ≠ "" ∧ (Step.add_note step0 " a ").notes ≠ [" a "] := by
  refine ⟨?_, ?_⟩ <;> decide

/-- C8 amended: `add_note text` appends the whitespace-trimmed text iff the
text is non-empty after trimming, and is a no-op otherwise; no other field
changes and no error is raised (the function is total). -/
theorem c8_add_note_trimmed (s : Step) (text : String) :
    Step.add_note s text =
      if pyStrip text == "" then s
      else { s with notes := s.notes ++ [pyStrip text] } := by
  rw [Step.add_note]
  by_cases hs : pyStrip text = ""
  · simp [hs]
  · have ht : text ≠ "" := by
      intro h
      apply hs
      rw [h]
      rfl
    simp [beq_eq_false_iff_ne.mpr hs, beq_eq_false_iff_ne.mpr ht, hs]

/-- C9: assuming the operating-system fact that the empty path never exists,
`add_screenshot` appends the reference and returns success iff the referenced
file exists, and otherwise returns failure leaving the step unchanged. -/
theorem c9_add_screenshot (fs : String → Bool) (hroot : fs "" = false)
    (s : Step) (path : String) :
    (fs path = true →
      Step.add_screenshot fs s path =
        ({ s with screenshots := s.screenshots ++ [path] }, true)) ∧
    (fs path = false → Step.add_screenshot fs s path = (s, false)) := by
  constructor
  · intro hfs
    by_cases hp : path = ""
    · rw [hp] at hfs; rw [hroot] at hfs; cases hfs
    · rw [Step.add_screenshot]
      simp [beq_eq_false_iff_ne.mpr hp, hfs]
  · intro hfs
    rw [Step.add_screenshot]
    simp [hfs]

/-- Witness for C9: on a filesystem where exactly a.png exists, attaching
a.png succeeds and appends it. -/
theorem c9_add_screenshot_witness :
    Step.add_screenshot fsOnlyA step0 "a.png" =
      ({ step0 with screenshots := step0.screenshots ++ ["a.png"] }, true) :=
  (c9_add_screenshot fsOnlyA (by decide) step0 "a.png").1 (by decide)

/-- C5: in export, a step satisfying `is_empty` contributes no document
content at all (the exported element stream for a list containing it equals
the title block followed by the other steps only); and a step whose only
content is one non-empty notes entry is rendered: heading, then the Notes:
sub-heading, then that entry as a bulleted item, then the page break. -/
theorem c5_export_empty_and_notes (fs imgOk : String → Bool) :
    (∀ (now ttl : String) (pre post : List Step) (s : Step), s.is_empty = true →
      exportDoc now ttl fs imgOk (pre ++ s :: post) =
        [DocElem.heading 0 ttl, DocElem.para ("Generated: " ++ now),
         DocElem.para ("Total Steps: " ++ toString (pre ++ s :: post).length),
         DocElem.pageBreak] ++
        (pre.bind (renderStep fs imgOk) ++ post.bind (renderStep fs imgOk))) ∧
    (∀ (i : Nat) (note : String), note ≠ "" →
      renderStep fs imgOk
          { index := i, title := "", expected := "", actual := "",
            notes := [note], screenshots := [] } =
        [DocElem.heading 1 ("Step " ++ toString i ++ ": " ++ "Untitled"),
         DocElem.heading 2 "Notes:", DocElem.bullet note, DocElem.pageBreak]) := by
  constructor
  · intro now ttl pre post s hs
    have h0 : renderStep fs imgOk s = [] := by
      rw [renderStep, hs]
      rfl
    simp [exportDoc, h0]
  · intro i note hn
    have hne : Step.is_empty
        { index := i, title := "", expected := "", actual := "",
          notes := [note], screenshots := [] } = false := rfl
    rw [renderStep, hne]
    simp [pyOr, renderShots]

/-- Witness for C5 at a concrete empty step and a concrete note-only step. -/
theorem c5_export_empty_and_notes_witness :
    (exportDoc "now" "T" fsOnlyA imgAll ([] ++ step0 :: []) =
      [DocElem.heading 0 "T", DocElem.para ("Generated: " ++ "now"),
       DocElem.para ("Total Steps: " ++ toString ([] ++ step0 :: []).length),
       DocElem.pageBreak] ++
      (List.bind [] (renderStep fsOnlyA imgAll) ++
        List.bind [] (renderStep fsOnlyA imgAll))) ∧
    renderStep fsOnlyA imgAll
        { index := 1, title := "", expected := "", actual := "",
          notes := ["ok"], screenshots := [] } =
      [DocElem.heading 1 ("Step " ++ toString 1 ++ ": " ++ "Untitled"),
       DocElem.heading 2 "Notes:", DocElem.bullet "ok", DocElem.pageBreak] :=
  ⟨(c5_export_empty_and_notes fsOnlyA imgAll).1 "now" "T" [] [] step0 (by decide),
   (c5_export_empty_and_notes fsOnlyA imgAll).2 1 "ok" (by decide)⟩

/-- C6: a screenshot reference whose file no longer exists at export time
yields exactly one placeholder paragraph naming the missing artifact, at its
caption position, and the remaining screenshots are still rendered; the
rendering functions are total, so the export never fails because of it. -/
theorem c6_missing_screenshot (fs imgOk : String → Bool) (p : String)
    (hp : fs p = false) :
    ∀ (i : Nat) (pre post : List String),
      renderShots fs imgOk i (pre ++ p :: post) =
        renderShots fs imgOk i pre ++
          DocElem.para ("[Screenshot " ++ toString (i + pre.length) ++
              " missing: " ++ p ++ "]") ::
            renderShots fs imgOk (i + pre.length + 1) post := by
  intro i pre post
  induction pre generalizing i with
  | nil => simp [renderShots, renderScreenshot, hp]
  | cons x xs ih =>
    have h1 : i + 1 + xs.length = i + (xs.length + 1) := by omega
    simp [renderShots, ih, h1, List.append_assoc]

/-- Witness for C6: gone.png was deleted after attachment; its placeholder
line appears between the renderings of a.png and b.png. -/
theorem c6_missing_screenshot_witness :
    renderShots fsNoGone imgAll 1 (["a.png"] ++ "gone.png" :: ["b.png"]) =
      renderShots fsNoGone imgAll 1 ["a.png"] ++
        DocElem.para ("[Screenshot " ++ toString (1 + (["a.png"] : List String).length) ++
            " missing: " ++ "gone.png" ++ "]") ::
          renderShots fsNoGone imgAll (1 + (["a.png"] : List String).length + 1) ["b.png"] :=
  c6_missing_screenshot fsNoGone imgAll "gone.png" (by decide) 1 ["a.png"] ["b.png"]

/-- C7: when no column name contains a title keyword, the title role falls
back to the first column (staying unset when there are no columns); when no
name contains an expected keyword, the expected role is the second column
exactly when one exists; when no name contains an actual keyword, the actual
role stays unset. -/
theorem c7_positional_fallbacks (cols : List String) (rows : List (List (Option String)))
    (hT : ∀ c ∈ cols, ∀ k ∈ title_keywords, hasSubstr k (pyStrip (lowerStr c)) = false)
    (hE : ∀ c ∈ cols, ∀ k ∈ expected_keywords, hasSubstr k (pyStrip (lowerStr c)) = false)
    (hA : ∀ c ∈ cols, ∀ k ∈ actual_keywords, hasSubstr k (pyStrip (lowerStr c)) = false) :
    (detect_columns { columns := cols, rows := rows }).title = cols.head? ∧
    (detect_columns { columns := cols, rows := rows }).expected = cols.get? 1 ∧
    (detect_columns { columns := cols, rows := rows }).actual = none := by
  have pick_none : ∀ kws : List String,
      (∀ c ∈ cols, ∀ k ∈ kws, hasSubstr k (pyStrip (lowerStr c)) = false) →
      pickCol kws cols = none := by
    intro kws h
    have hnone : findIdxAux (roleMatch kws) (cols.map (fun c => pyStrip (lowerStr c))) 0 =
        none := by
      apply findIdxAux_eq_none
      intro x hx
      rw [List.mem_map] at hx
      obtain ⟨c, hc, hxeq⟩ := hx
      subst hxeq
      rw [roleMatch, List.any_eq_false]
      intro k hk
      simp [h c hc k hk]
    rw [pickCol, hnone]
  refine ⟨?_, ?_, ?_⟩ <;>
    simp [detect_columns, pick_none title_keywords hT, pick_none expected_keywords hE,
      pick_none actual_keywords hA]

/-- Witness for C7: neither xyz nor qq contains any role keyword, so title
falls back to the first column, expected to the second, actual stays unset. -/
theorem c7_positional_fallbacks_witness :
    (detect_columns { columns := ["xyz", "qq"], rows := [] }).title =
        (["xyz", "qq"] : List String).head? ∧
    (detect_columns { columns := ["xyz", "qq"], rows := [] }).expected =
        (["xyz", "qq"] : List String).get? 1 ∧
    (detect_columns { columns := ["xyz", "qq"], rows := [] }).actual = none :=
  c7_positional_fallbacks ["xyz", "qq"] [] (by decide) (by decide) (by decide)

/-- C1: for non-empty clipboard text, the presence of any tab character
makes ingestion parse the text tab-delimited (even when commas are present,
since the equation holds for every such text), with the first line of the
text as the header row whenever that line is non-blank; comma-delimited
parsing is used only when no tab occurs at all. -/
theorem c1_tab_priority (text : String) (hne : pyStrip text ≠ "") :
    (text.data.contains '\t' = true →
      parse_excel_from_clipboard text = readCsv '\t' text) ∧
    (text.data.contains '\t' = false → text.data.contains ',' = true →
      parse_excel_from_clipboard text = readCsv ',' text) ∧
    (∀ (t : RawTable) (hd : String) (rest : List String),
      text.data.contains '\t' = true →
      strSplit '\n' text = hd :: rest → hd ≠ "" →
      parse_excel_from_clipboard text = some t →
      t.columns = strSplit '\t' hd) := by
  have htext : ¬(text = "") := by
    intro h
    apply hne
    rw [h]
    rfl
  have hb1 : (text == "") = false := beq_eq_false_iff_ne.mpr htext
  have hb2 : (pyStrip text == "") = false := beq_eq_false_iff_ne.mpr hne
  refine ⟨?_, ?_, ?_⟩
  · intro htab
    rw [parse_excel_from_clipboard]
    simp at htab
    simp [hb1, hb2, htab]
  · intro htab hcomma
    rw [parse_excel_from_clipboard]
    simp at htab hcomma
    simp [hb1, hb2, htab, hcomma]
  · intro t hd rest htab hsplit hhd hsome
    have hp : parse_excel_from_clipboard text = readCsv '\t' text := by
      rw [parse_excel_from_clipboard]
      simp at htab
      simp [hb1, hb2, htab]
    rw [hp, readCsv, hsplit] at hsome
    simp only [List.filter_cons, beq_eq_false_iff_ne.mpr hhd, Bool.not_false,
      if_true, Bool.not_eq_true'] at hsome
    split at hsome
    · cases hsome
    · rw [Option.some_inj] at hsome
      rw [← hsome]

/-- Witness for C1: a text holding both commas and a tab is parsed
tab-delimited, and its columns are the tab-fields of the first line. -/
theorem c1_tab_priority_witness :
    parse_excel_from_clipboard "x,y\tz\nu" = readCsv '\t' "x,y\tz\nu" ∧
    RawTable.columns { columns := ["x,y", "z"], rows := [[some "u", none]] } =
      strSplit '\t' "x,y\tz" :=
  ⟨(c1_tab_priority "x,y\tz\nu" (by decide)).1 (by decide),
   (c1_tab_priority "x,y\tz\nu" (by decide)).2.2
     { columns := ["x,y", "z"], rows := [[some "u", none]] } "x,y\tz" ["u"]
     (by decide) (by decide) (by decide) (by decide)⟩

/-- The row loop numbers the kept steps `k + 1, k + 2, ...` from any
starting count `k`. -/
theorem buildStepsAux_map_index (t : RawTable) (tc : String) (ec ac : Option String)
    (sk : Bool) :
    ∀ (rows : List (List (Option String))) (k : Nat),
      (buildStepsAux t tc ec ac sk rows k).map Step.index =
        List.range' (k + 1) (buildStepsAux t tc ec ac sk rows k).length := by
  intro rows
  induction rows with
  | nil => intro k; rfl
  | cons row rest ih =>
    intro k
    cases hv : rowVals t tc ec ac row with
    | error e =>
      simp only [buildStepsAux, hv]
      exact ih k
    | ok v =>
      obtain ⟨tv, ev, av⟩ := v
      simp only [buildStepsAux, hv]
      cases hc : sk && skipTitleVal tv
      · simp only [Bool.false_eq_true, if_false, List.map_cons, List.length_cons,
          List.range'_succ]
        simp [ih (k + 1)]
      · simp only [if_true]
        exact ih k

/-- C3: the indices of the steps kept by mapping resolution always form the
dense sequence 1..N, whatever rows were dropped by the empty-title filter or
by per-row failures. -/
theorem c3_dense_indices (t : RawTable) (tc : String) (ec ac : Option String)
    (sk : Bool) :
    (buildSteps t tc ec ac sk).map Step.index =
      List.range' 1 (buildSteps t tc ec ac sk).length :=
  buildStepsAux_map_index t tc ec ac sk t.rows 0

/-- Every step kept by the row loop carries the stripped text of the cells
of some input row. -/
theorem mem_buildStepsAux (t : RawTable) (tc : String) (ec ac : Option String)
    (sk : Bool) :
    ∀ (rows : List (List (Option String))) (k : Nat) (st : Step),
      st ∈ buildStepsAux t tc ec ac sk rows k →
      ∃ row ∈ rows, ∃ tv ev av, rowVals t tc ec ac row = Except.ok (tv, ev, av) ∧
        st.title = pyStrip tv ∧ st.expected = pyStrip ev ∧ st.actual = pyStrip av := by
  intro rows
  induction rows with
  | nil =>
    intro k st h
    simp [buildStepsAux] at h
  | cons row rest ih =>
    intro k st h
    cases hv : rowVals t tc ec ac row with
    | error e =>
      simp only [buildStepsAux, hv] at h
      obtain ⟨r, hr, p⟩ := ih k st h
      exact ⟨r, List.mem_cons_of_mem _ hr, p⟩
    | ok v =>
      obtain ⟨tv, ev, av⟩ := v
      simp only [buildStepsAux, hv] at h
      cases hc : sk && skipTitleVal tv
      · rw [hc] at h
        simp only [Bool.false_eq_true, if_false] at h
        rcases List.mem_cons.mp h with heq | htail
        · subst heq
          exact ⟨row, List.mem_cons_self _ _, tv, ev, av, hv, rfl, rfl, rfl⟩
        · obtain ⟨r, hr, p⟩ := ih (k + 1) st htail
          exact ⟨r, List.mem_cons_of_mem _ hr, p⟩
      · rw [hc] at h
        simp only [if_true] at h
        obtain ⟨r, hr, p⟩ := ih k st h
        exact ⟨r, List.mem_cons_of_mem _ hr, p⟩

/-- C10: every step produced by mapping resolution carries, in its title,
expected and actual fields, exactly the whitespace-stripped text of the
cells its source row resolved to (with missing cells read as the empty
string inside `rowVals`), and consequently none of the three fields has a
leading or trailing whitespace character. -/
theorem c10_fields_trimmed (t : RawTable) (tc : String) (ec ac : Option String)
    (sk : Bool) (st : Step) (h : st ∈ buildSteps t tc ec ac sk) :
    (∃ row ∈ t.rows, ∃ tv ev av, rowVals t tc ec ac row = Except.ok (tv, ev, av) ∧
      st.title = pyStrip tv ∧ st.expected = pyStrip ev ∧ st.actual = pyStrip av) ∧
    (∀ a, st.title.data.head? = some a → isSpaceChar a = false) ∧
    (∀ a, st.title.data.getLast? = some a → isSpaceChar a = false) ∧
    (∀ a, st.expected.data.head? = some a → isSpaceChar a = false) ∧
    (∀ a, st.expected.data.getLast? = some a → isSpaceChar a = false) ∧
    (∀ a, st.actual.data.head? = some a → isSpaceChar a = false) ∧
    (∀ a, st.actual.data.getLast? = some a → isSpaceChar a = false) := by
  obtain ⟨row, hrow, tv, ev, av, hv, ht, he, ha⟩ :=
    mem_buildStepsAux t tc ec ac sk t.rows 0 st h
  refine ⟨⟨row, hrow, tv, ev, av, hv, ht, he, ha⟩, ?_, ?_, ?_, ?_, ?_, ?_⟩
  · intro a hh
    rw [ht] at hh
    exact stripChars_head_not tv.data a hh
  · intro a hh
    rw [ht] at hh
    exact stripChars_last_not tv.data a hh
  · intro a hh
    rw [he] at hh
    exact stripChars_head_not ev.data a hh
  · intro a hh
    rw [he] at hh
    exact stripChars_last_not ev.data a hh
  · intro a hh
    rw [ha] at hh
    exact stripChars_head_not av.data a hh
  · intro a hh
    rw [ha] at hh
    exact stripChars_last_not av.data a hh

/-- Witness for C10 at a concrete table whose single cell has surrounding
whitespace: the produced step is a member of the resolution output and its
fields are the stripped cell texts. -/
theorem c10_fields_trimmed_witness :
    (∃ row ∈ tablePad.rows, ∃ tv ev av,
        rowVals tablePad "Title" none none row = Except.ok (tv, ev, av) ∧
        stepX.title = pyStrip tv ∧ stepX.expected = pyStrip ev ∧
        stepX.actual = pyStrip av) ∧
    (∀ a, stepX.title.data.head? = some a → isSpaceChar a = false) ∧
    (∀ a, stepX.title.data.getLast? = some a → isSpaceChar a = false) ∧
    (∀ a, stepX.expected.data.head? = some a → isSpaceChar a = false) ∧
    (∀ a, stepX.expected.data.getLast? = some a → isSpaceChar a = false) ∧
    (∀ a, stepX.actual.data.head? = some a → isSpaceChar a = false) ∧
    (∀ a, stepX.actual.data.getLast? = some a → isSpaceChar a = false) :=
  c10_fields_trimmed tablePad "Title" none none true stepX (by decide)
